import Mathlib

/-!
Verification development for the helpdesk notification dispatcher
(helpdesk/libs/notification.py). The Python source is shallowly embedded:
pure rendering code becomes Lean functions; code that can raise becomes
Option-valued functions (none = an exception propagated); the SMTP and
HTTP transports are modelled by oracles describing the outcome of each
external call, and each send returns the observable trace (events,
network posts, diagnostic reports) together with whether it returned
normally or raised.
-/

namespace Helpdesk

/-- Modelled from the spec: TicketPhase is the enumerated variant
set given in the data model, REQUEST, APPROVAL and MARK, with string
values request, approval and mark (helpdesk.models.db.ticket is not
part of the sources here). -/
inductive TicketPhase
  | request
  | approval
  | mark
deriving DecidableEq

/-- The .value attribute of the phase enum. -/
def TicketPhase.value : TicketPhase → String
  | .request => "request"
  | .approval => "approval"
  | .mark => "mark"

/-- One entry of the annotation nodes sequence: a Python dict read with
.get, so both fields are optional (missing key yields None). -/
structure Node where
  name : Option String
  node_type : Option String
deriving DecidableEq

/-- The ticket read-view used by notification.py. Python attributes that
can be None are Option-valued; annotation is a free-form dict accessed
with .get, embedded here field by field (ann_x stands for
annotation.get of key x). -/
structure Ticket where
  title : String
  submitter : String
  ccs : List String
  reason : Option String
  status : String
  created_at : String
  confirmed_by : String
  is_approved : Option Bool
  is_auto_approved : Bool
  web_url : String
  params : List (String × String)
  color : String
  ann_current_node : Option String
  ann_nodes : Option (List Node)
  ann_policy : Option String
  ann_approvers : Option String
  ann_approval_log : Option String
  ann_reason : Option String
deriving DecidableEq

/-- Python truthiness of the tri-state is_approved value. -/
def pyTruthy : Option Bool → Bool
  | some true => true
  | some false => false
  | none => false

/-- Python f-string rendering of a possibly-None string. -/
def pyStrOpt : Option String → String
  | none => "None"
  | some s => s

/-- Python x or False on the tri-state is_approved value. -/
def pyOrFalse : Option Bool → Bool
  | some true => true
  | some false => false
  | none => false

/- ---------------------------------------------------------------
Template renderer shared by Mail and generic Webhook
(Notification.render, notification.py lines 60 to 68).
--------------------------------------------------------------- -/

/-- A direct child element of the parsed markup root: its tag and its
text (ElementTree .text, None when the element has no text). -/
structure XmlNode where
  tag : String
  text : Option String
deriving DecidableEq

/-- Python str.join over the .text of the matched elements: raises
TypeError (none) as soon as one element has text None, otherwise
concatenates. -/
def joinTexts : List XmlNode → Option String
  | [] => some ""
  | n :: rest =>
    match n.text, joinTexts rest with
    | some s, some r => some (s ++ r)
    | _, _ => none

/-- Notification.render. The input is the result of parsing the
templated text: none when ET.fromstring raised ParseError, otherwise
the list of direct children of the root. findall of a tag keeps the
children with that tag; the joined texts form title and content. The
result is none when parsing or a join raised. -/
def Notification.render (parsed : Option (List XmlNode)) : Option (String × String) :=
  match parsed with
  | none => none
  | some children =>
    match joinTexts (children.filter (fun n => n.tag == "title")),
          joinTexts (children.filter (fun n => n.tag == "content")) with
    | some title, some content => some (title, content)
    | _, _ => none

/- ---------------------------------------------------------------
Mail channel (MailNotification, notification.py lines 75 to 106).
--------------------------------------------------------------- -/

/-- MailNotification.get_mail_addrs, the list built before joining:
admin, mapped ccs, the policy approvers string split on commas, mapped
approver rule-actions, and the mapped submitter when the phase value is
approval or mark. getUserEmail, approvers, ruleApprovers and adminAddrs
stand for the external collaborators (config and policy engine). -/
def mailAddrList (phase : TicketPhase) (t : Ticket) (getUserEmail : String → String)
    (approvers : String) (ruleApprovers : List String) (adminAddrs : String) : List String :=
  let email_addrs := [adminAddrs] ++ t.ccs.map getUserEmail ++ approvers.splitOn ","
  let email_addrs := email_addrs ++ ruleApprovers.map getUserEmail
  if phase.value = "approval" ∨ phase.value = "mark" then
    email_addrs ++ [getUserEmail t.submitter]
  else
    email_addrs

/-- The generator filter in the final join: falsy (empty) entries are
dropped. -/
def mailAddrSegments (phase : TicketPhase) (t : Ticket) (getUserEmail : String → String)
    (approvers : String) (ruleApprovers : List String) (adminAddrs : String) : List String :=
  (mailAddrList phase t getUserEmail approvers ruleApprovers adminAddrs).filter
    (fun a => a != "")

/-- MailNotification.get_mail_addrs: the comma join of the non-empty
entries. -/
def get_mail_addrs (phase : TicketPhase) (t : Ticket) (getUserEmail : String → String)
    (approvers : String) (ruleApprovers : List String) (adminAddrs : String) : String :=
  String.intercalate "," (mailAddrSegments phase t getUserEmail approvers ruleApprovers adminAddrs)

/-- Events observable on the SMTP session during MailNotification.send. -/
inductive MailEvent
  | connect
  | login
  | sendMsg
  | quit
deriving DecidableEq

/-- Whether a send call returned normally or let an exception
propagate. -/
inductive SendResult
  | ok
  | raised
deriving DecidableEq

/-- Outcomes of the external SMTP calls in one MailNotification.send:
whether SMTP_CREDENTIALS is configured, whether login raises, whether
send_message raises. -/
structure SmtpOracle where
  credentials : Bool
  loginFails : Bool
  sendFails : Bool
deriving DecidableEq

/-- MailNotification.send as a trace of SMTP events plus its result.
rendered is none when get_mail_addrs or render raised before any SMTP
connection. The source connects, then logs in when credentials are
configured (outside any try block), and only wraps send_message in
try/finally quit. -/
def mailSendTrace (rendered : Option (String × String)) (o : SmtpOracle) :
    List MailEvent × SendResult :=
  match rendered with
  | none => ([], .raised)
  | some _ =>
    if o.credentials then
      if o.loginFails then
        ([.connect, .login], .raised)
      else if o.sendFails then
        ([.connect, .login, .sendMsg, .quit], .raised)
      else
        ([.connect, .login, .sendMsg, .quit], .ok)
    else if o.sendFails then
      ([.connect, .sendMsg, .quit], .raised)
    else
      ([.connect, .sendMsg, .quit], .ok)

/- ---------------------------------------------------------------
Generic webhook channel (WebhookNotification, lines 109 to 144).
--------------------------------------------------------------- -/

/-- WebhookNotification.get_color. -/
def get_color (phase : TicketPhase) (t : Ticket) : String :=
  if phase.value ≠ "request" then t.color
  else if pyTruthy t.is_approved then "#17a2b8"
  else "#ffc107"

/-- The JSON body posted by WebhookNotification.send. -/
structure WebhookMsg where
  msg_from : String
  title : String
  link : String
  color : String
  text : String
  markdown : String
deriving DecidableEq

/-- The body of an HTTP response as seen by r.json and the StatusCode
lookup: the body may fail to parse as JSON, parse but lack the
StatusCode key, or carry an integer StatusCode. -/
inductive JsonBody
  | invalid
  | missingStatusCode
  | statusCode (n : Int)
deriving DecidableEq

/-- Outcome of one requests.post call: the connection fails and the
call raises, or a response with an HTTP status and a body arrives. -/
inductive HttpOutcome
  | connError
  | response (status : Nat) (body : JsonBody)
deriving DecidableEq

/-- Result of WebhookNotification.send: whether it returned or raised,
and the posts performed, each with its JSON body and timeout. -/
structure WebhookSendOutcome where
  result : SendResult
  posts : List (WebhookMsg × Nat)
deriving DecidableEq

/-- WebhookNotification.send. Returns at once when WEBHOOK_URL is not
configured; raises when render raised; otherwise posts the message with
timeout 3 and calls raise_for_status, which raises exactly when the
status is a 4xx or 5xx code. -/
def webhookSend (urlSet : Bool) (phase : TicketPhase) (t : Ticket)
    (rendered : Option (String × String)) (o : HttpOutcome) : WebhookSendOutcome :=
  if urlSet = false then ⟨.ok, []⟩
  else
    match rendered with
    | none => ⟨.raised, []⟩
    | some (title, content) =>
      let msg : WebhookMsg :=
        { msg_from := "helpdesk"
          title := title
          link := t.web_url
          color := get_color phase t
          text := title ++ "\n" ++ t.web_url ++ "\n" ++ content
          markdown := content }
      match o with
      | .connError => ⟨.raised, [(msg, 3)]⟩
      | .response status _ =>
        if 400 ≤ status ∧ status < 600 then ⟨.raised, [(msg, 3)]⟩
        else ⟨.ok, [(msg, 3)]⟩

/- ---------------------------------------------------------------
Chat-card channel (LarkWebhookNotification, lines 147 to 227).
--------------------------------------------------------------- -/

/-- The common header built before the phase branch in
LarkWebhookNotification.render: ticket url, parameters, request
time. -/
def larkCommonHeader (t : Ticket) : String :=
  "[Ticket url](" ++ t.web_url ++ ")\n"
    ++ "Parameters:\n"
    ++ String.join (t.params.map (fun p => "  " ++ p.1 ++ ": " ++ p.2 ++ "\n"))
    ++ "Request time: " ++ t.created_at ++ "\n"

/-- LarkWebhookNotification.render: the (title, content) pair per
phase. The source falls back to a generic title for phases beyond the
three modelled ones; with the spec's three-phase enum every branch is
explicit. -/
def larkRender (phase : TicketPhase) (t : Ticket) : String × String :=
  let content := larkCommonHeader t
  match phase with
  | .request =>
    let title := "[helpdesk]" ++ t.submitter ++ "  requested to " ++ t.title
    let content := content ++ "Reason: " ++ pyStrOpt t.reason ++ "\n"
    let content := if t.is_auto_approved then content ++ "auto approved\n" else content
    (title, content)
  | .approval =>
    if pyTruthy t.is_approved then
      ("[helpdesk approved]" ++ t.submitter ++ "\u0027s request to " ++ t.title
         ++ " was approved by " ++ t.confirmed_by,
       content ++ "Reason: " ++ pyStrOpt t.reason ++ "\n")
    else
      ("[helpdesk approved]" ++ t.submitter ++ "\u0027s request to " ++ t.title
         ++ " was rejected by " ++ t.confirmed_by,
       if t.reason ≠ t.ann_reason then
         content ++ "Reject reason: " ++ pyStrOpt t.reason
       else content)
  | .mark =>
    ("[helpdesk approved]" ++ t.submitter ++ "\u0027s request to " ++ t.title
       ++ " was marked " ++ t.status,
     content)

/-- One button of the card's action element: the plain-text label, the
button type and the target url. -/
structure LarkButton where
  label : String
  btn_type : String
  url : String
deriving DecidableEq

/-- One entry of the card's elements list. -/
inductive LarkElement
  | markdown (content : String)
  | action (actions : List LarkButton)
deriving DecidableEq

/-- The card payload built by LarkWebhookNotification.send. -/
structure LarkCard where
  wide_screen_mode : Bool
  elements : List LarkElement
  header_title : String
deriving DecidableEq

/-- The msg dict built in LarkWebhookNotification.send: a markdown
element with the rendered content, plus an action element with the
Approve and Reject buttons when the phase is REQUEST and the ticket is
not auto-approved. -/
def larkCardMsg (phase : TicketPhase) (t : Ticket) : LarkCard :=
  let rendered := larkRender phase t
  let elements := [LarkElement.markdown rendered.2]
  let elements :=
    if phase = .request ∧ t.is_auto_approved = false then
      elements ++ [LarkElement.action
        [⟨"Approve", "primary", t.web_url ++ "/approve"⟩,
         ⟨"Reject", "danger", t.web_url ++ "/reject"⟩]]
    else elements
  { wide_screen_mode := true, elements := elements, header_title := rendered.1 }

/-- All buttons of all action elements of a card, in order. -/
def cardButtons (c : LarkCard) : List LarkButton :=
  c.elements.foldr
    (fun e acc =>
      match e with
      | .markdown _ => acc
      | .action bs => bs ++ acc)
    []

/-- Result of a report-style send (chat-card and event webhook):
whether it returned or raised, the number of posts performed or
attempted, and the number of report calls to the sink. -/
structure DeliveryOutcome where
  result : SendResult
  posts : Nat
  reports : Nat
deriving DecidableEq

/-- LarkWebhookNotification.send, delivery part. Returns at once when
LARK_WEBHOOK_URL is not configured. The post itself may raise
(connection error). On a response, r.json is only evaluated when the
status is 200; a 200 response without a parsable StatusCode raises; a
200 response with StatusCode zero is success; anything else calls
report once and returns. -/
def larkSend (urlSet : Bool) (o : HttpOutcome) : DeliveryOutcome :=
  if urlSet = false then ⟨.ok, 0, 0⟩
  else
    match o with
    | .connError => ⟨.raised, 1, 0⟩
    | .response status body =>
      if status = 200 then
        match body with
        | .invalid => ⟨.raised, 1, 0⟩
        | .missingStatusCode => ⟨.raised, 1, 0⟩
        | .statusCode n => if n = 0 then ⟨.ok, 1, 0⟩ else ⟨.ok, 1, 1⟩
      else ⟨.ok, 1, 1⟩

/- ---------------------------------------------------------------
Event webhook channel (WebhookEventNotification, lines 230 to 268).
--------------------------------------------------------------- -/

/-- Modelled from the spec: the NotifyMessage event schema of
helpdesk.views.api.schemas (not among the sources), with the fields
listed in the external-interfaces section. Field types follow what the
source assigns: values read from the annotation dict stay optional. -/
structure NotifyMessage where
  phase : String
  title : String
  ticket_url : String
  status : String
  is_approved : Bool
  submitter : String
  params : List (String × String)
  request_time : String
  reason : String
  approval_flow : Option String
  current_node : Option String
  approvers : Option String
  next_node : Option String
  approval_log : Option String
  notify_type : Option String
deriving DecidableEq

/-- nodes[i].get of the name key, as used for the following node. -/
def nodeNameAt (nodes : List Node) (i : Nat) : Option String :=
  match nodes[i]? with
  | some n => n.name
  | none => none

/-- The body of one iteration of the scan loop in
WebhookEventNotification.render: when current_node equals this node's
name, overwrite (next_node, notify_type), else keep the
accumulator. -/
def scanStep (current : Option String) (all : List Node) (idx : Nat) (node : Node)
    (acc : Option String × Option String) : Option String × Option String :=
  if current = node.name then
    ((if idx ≠ all.length - 1 then nodeNameAt all (idx + 1) else some ""), node.node_type)
  else acc

/-- The enumerate loop of WebhookEventNotification.render over the
remaining nodes, carrying the running index. -/
def scanNodes (current : Option String) (all : List Node) :
    Nat → List Node → (Option String × Option String) → Option String × Option String
  | _, [], acc => acc
  | idx, node :: rest, acc =>
    scanNodes current all (idx + 1) rest (scanStep current all idx node acc)

/-- The (next_node, notify_type) pair computed by
WebhookEventNotification.render: both start as the empty string and the
loop runs over all nodes. -/
def renderNextNode (current : Option String) (nodes : List Node) :
    Option String × Option String :=
  scanNodes current nodes 0 nodes (some "", some "")

/-- The name of the head of the following segment, or the empty string
when the matching node is last: the value the scan assigns next_node. -/
def followingNodeName : List Node → Option String
  | [] => some ""
  | n2 :: _ => n2.name

/-- WebhookEventNotification.render: none when annotation.get of nodes
is None (enumerate then raises TypeError), otherwise the NotifyMessage
with is_approved coerced by or False and reason coerced by or the
empty string. -/
def eventRender (phase : TicketPhase) (t : Ticket) : Option NotifyMessage :=
  match t.ann_nodes with
  | none => none
  | some nodes =>
    let scanned := renderNextNode t.ann_current_node nodes
    some
      { phase := phase.value
        title := t.title
        ticket_url := t.web_url
        status := t.status
        is_approved := pyOrFalse t.is_approved
        submitter := t.submitter
        params := t.params
        request_time := t.created_at
        reason := t.reason.getD ""
        approval_flow := t.ann_policy
        current_node := t.ann_current_node
        approvers := t.ann_approvers
        next_node := scanned.1
        approval_log := t.ann_approval_log
        notify_type := scanned.2 }

/-- WebhookEventNotification.send. Returns at once when
WEBHOOK_EVENT_URL is not configured; raises when render raised; then
posts and applies the same status-200 and StatusCode-zero check as the
chat card, reporting once on a non-success response. -/
def eventSend (urlSet : Bool) (rendered : Option NotifyMessage) (o : HttpOutcome) :
    DeliveryOutcome :=
  if urlSet = false then ⟨.ok, 0, 0⟩
  else
    match rendered with
    | none => ⟨.raised, 0, 0⟩
    | some _ =>
      match o with
      | .connError => ⟨.raised, 1, 0⟩
      | .response status body =>
        if status = 200 then
          match body with
          | .invalid => ⟨.raised, 1, 0⟩
          | .missingStatusCode => ⟨.raised, 1, 0⟩
          | .statusCode n => if n = 0 then ⟨.ok, 1, 0⟩ else ⟨.ok, 1, 1⟩
        else ⟨.ok, 1, 1⟩

/- ---------------------------------------------------------------
Concrete example values used by witnesses and counterexamples.
--------------------------------------------------------------- -/

/-- A small concrete ticket: not auto-approved, tri-state approval
unset, reason differing from the annotation reason, empty node list. -/
def exTicket : Ticket :=
  { title := "restart db"
    submitter := "alice"
    ccs := ["bob"]
    reason := some "need it"
    status := "pending"
    created_at := "2021-01-01 00:00:00"
    confirmed_by := "carol"
    is_approved := none
    is_auto_approved := false
    web_url := "https://h/t/1"
    params := [("cluster", "c1")]
    color := "#336699"
    ann_current_node := none
    ann_nodes := some []
    ann_policy := some "p"
    ann_approvers := some "carol"
    ann_approval_log := none
    ann_reason := some "stale" }

/-- The three-node annotation sequence of the spec's example. -/
def nodeA : Node := ⟨some "A", some "typeA"⟩

/-- Second node of the example sequence. -/
def nodeB : Node := ⟨some "B", some "typeB"⟩

/-- Third node of the example sequence. -/
def nodeC : Node := ⟨some "C", some "typeC"⟩

/-- The example ticket positioned at node B of the sequence A, B, C. -/
def exTicketNodes : Ticket :=
  { exTicket with
    ann_current_node := some "B"
    ann_nodes := some [nodeA, nodeB, nodeC] }

/-- A concrete NotifyMessage for the event-channel theorems. -/
def exMsg : NotifyMessage :=
  { phase := "approval"
    title := "restart db"
    ticket_url := "https://h/t/1"
    status := "pending"
    is_approved := false
    submitter := "alice"
    params := []
    request_time := "2021-01-01 00:00:00"
    reason := ""
    approval_flow := some "p"
    current_node := some "B"
    approvers := some "carol"
    next_node := some "C"
    approval_log := none
    notify_type := some "typeB" }

/- ---------------------------------------------------------------
Helper lemmas
--------------------------------------------------------------- -/

/-- Helper: a String append is non-empty when its left part is. -/
lemma append_ne_empty_left {s r : String} (hs : s ≠ "") : s ++ r ≠ "" := by
  intro h
  apply hs
  have hlen := congrArg String.length h
  rw [String.length_append] at hlen
  have h0 : ("" : String).length = 0 := rfl
  rw [h0] at hlen
  have : s.length = 0 := by omega
  exact String.ext (List.length_eq_zero.mp this)

/-- Helper: a String append is non-empty when its right part is. -/
lemma append_ne_empty_right {s r : String} (hr : r ≠ "") : s ++ r ≠ "" := by
  intro h
  apply hr
  have hlen := congrArg String.length h
  rw [String.length_append] at hlen
  have h0 : ("" : String).length = 0 := rfl
  rw [h0] at hlen
  have : r.length = 0 := by omega
  exact String.ext (List.length_eq_zero.mp this)

/-- Definitional unfolding of Notification.render on a parsed tree. -/
lemma render_some (children : List XmlNode) :
    Notification.render (some children) =
      match joinTexts (children.filter (fun n => n.tag == "title")),
            joinTexts (children.filter (fun n => n.tag == "content")) with
      | some title, some content => some (title, content)
      | _, _ => none := rfl

/-- Helper: when the join of the texts succeeds and some member element
carries non-empty text, the joined string is non-empty. -/
lemma joinTexts_ne_empty {l : List XmlNode} {t : String} (hj : joinTexts l = some t)
    {n : XmlNode} (hn : n ∈ l) {s : String} (hs : n.text = some s) (hne : s ≠ "") :
    t ≠ "" := by
  induction l generalizing t with
  | nil => cases hn
  | cons hd tl ih =>
    cases htext : hd.text with
    | none => simp [joinTexts, htext] at hj
    | some s0 =>
      cases hjt : joinTexts tl with
      | none => simp [joinTexts, htext, hjt] at hj
      | some r =>
        have ht : s0 ++ r = t := by
          simpa [joinTexts, htext, hjt] using hj
        rcases List.mem_cons.mp hn with rfl | hmem
        · rw [htext] at hs
          injection hs with hs0
          subst hs0
          rw [← ht]
          exact append_ne_empty_left hne
        · rw [← ht]
          exact append_ne_empty_right (ih hjt hmem)

/-- Helper: scanning a segment in which no node name matches leaves the
accumulator untouched and advances the index past the segment. -/
lemma scanNodes_skip (current : Option String) (all : List Node) :
    ∀ (pre l : List Node) (idx : Nat) (acc : Option String × Option String),
      (∀ n ∈ pre, current ≠ n.name) →
      scanNodes current all idx (pre ++ l) acc =
        scanNodes current all (idx + pre.length) l acc := by
  intro pre
  induction pre with
  | nil =>
    intro l idx acc h
    simp
  | cons p ps ih =>
    intro l idx acc h
    have hp : current ≠ p.name := h p (List.mem_cons_self p ps)
    have hrest : ∀ n ∈ ps, current ≠ n.name := fun n hn => h n (List.mem_cons_of_mem p hn)
    have harith : idx + 1 + ps.length = idx + (ps.length + 1) := by omega
    simp only [List.cons_append, List.append_eq, scanNodes, scanStep, if_neg hp]
    rw [ih l (idx + 1) acc hrest, harith]
    rfl

/-- Helper: the (next_node, notify_type) scan at a node sequence that
decomposes around its unique matching node. -/
lemma renderNextNode_spec (current : String) (pre post : List Node) (node : Node)
    (hname : node.name = some current)
    (hpre : ∀ n ∈ pre, n.name ≠ some current)
    (hpost : ∀ n ∈ post, n.name ≠ some current) :
    renderNextNode (some current) (pre ++ node :: post) =
      (followingNodeName post, node.node_type) := by
  have hpre' : ∀ n ∈ pre, (some current : Option String) ≠ n.name :=
    fun n hmem he => hpre n hmem he.symm
  have hpost' : ∀ n ∈ post, (some current : Option String) ≠ n.name :=
    fun n hmem he => hpost n hmem he.symm
  unfold renderNextNode
  rw [scanNodes_skip (some current) (pre ++ node :: post) pre (node :: post) 0
    (some "", some "") hpre']
  have hzero : 0 + pre.length = pre.length := by omega
  rw [hzero]
  show scanNodes (some current) (pre ++ node :: post) (pre.length + 1) post
    (scanStep (some current) (pre ++ node :: post) pre.length node (some "", some "")) = _
  have hskip2 := scanNodes_skip (some current) (pre ++ node :: post) post [] (pre.length + 1)
    (scanStep (some current) (pre ++ node :: post) pre.length node (some "", some "")) hpost'
  rw [List.append_nil] at hskip2
  rw [hskip2]
  show scanStep (some current) (pre ++ node :: post) pre.length node (some "", some "") = _
  unfold scanStep
  rw [if_pos hname.symm]
  cases post with
  | nil =>
    have hcond : ¬ (pre.length ≠ (pre ++ node :: ([] : List Node)).length - 1) := by
      simp only [List.length_append, List.length_cons, List.length_nil, ne_eq]
      omega
    rw [if_neg hcond]
    rfl
  | cons n2 rest =>
    have hcond : pre.length ≠ (pre ++ node :: n2 :: rest).length - 1 := by
      simp only [List.length_append, List.length_cons, ne_eq]
      omega
    rw [if_pos hcond]
    have hidx : (pre ++ node :: n2 :: rest)[pre.length + 1]? = some n2 := by
      rw [List.getElem?_append_right (by omega)]
      have h1 : pre.length + 1 - pre.length = 1 := by omega
      rw [h1]
      simp
    simp [nodeNameAt, followingNodeName, hidx]

/- ---------------------------------------------------------------
Claim theorems, with their witnesses and counterexamples
--------------------------------------------------------------- -/

/-- Claim C1 counterexample: for a parsable template output with zero
title elements, render does not fail and silently returns an empty
title, refuting that it either yields non-empty title and content or
errors. -/
theorem c1_counterexample :
    ¬ (Notification.render (some [⟨"content", some "x"⟩]) = none ∨
       ∀ p : String × String,
         Notification.render (some [⟨"content", some "x"⟩]) = some p →
           p.1 ≠ "" ∧ p.2 ≠ "") := by
  intro h
  rcases h with h | h
  · exact absurd h (by decide)
  · exact (h ("", "x") (by decide)).1 rfl

/-- Claim C1 (amended): render is a hard failure on unparsable markup
and whenever a matched title or content element carries no text; when
it succeeds, title and content are the concatenated texts of the
matched elements, hence non-empty whenever at least one matched element
has non-empty text. However, zero title or content elements is not an
error: render then silently returns an empty string for that part. -/
theorem c1_render_nonempty (children : List XmlNode)
    (htitle : ∃ n ∈ children, n.tag = "title" ∧ ∃ s, n.text = some s ∧ s ≠ "")
    (hcontent : ∃ n ∈ children, n.tag = "content" ∧ ∃ s, n.text = some s ∧ s ≠ "") :
    ∀ ti co, Notification.render (some children) = some (ti, co) →
      ti ≠ "" ∧ co ≠ "" := by
  intro ti co h
  rw [render_some] at h
  cases hjt : joinTexts (children.filter (fun n => n.tag == "title")) with
  | none =>
    rw [hjt] at h
    cases hjc : joinTexts (children.filter (fun n => n.tag == "content")) with
    | none => rw [hjc] at h; exact Option.noConfusion h
    | some b => rw [hjc] at h; exact Option.noConfusion h
  | some a =>
    rw [hjt] at h
    cases hjc : joinTexts (children.filter (fun n => n.tag == "content")) with
    | none => rw [hjc] at h; exact Option.noConfusion h
    | some b =>
      rw [hjc] at h
      have h' := Option.some.inj h
      have ha : a = ti := congrArg Prod.fst h'
      have hb : b = co := congrArg Prod.snd h'
      subst ha
      subst hb
      obtain ⟨n1, hn1, htag1, s1, hs1, hne1⟩ := htitle
      obtain ⟨n2, hn2, htag2, s2, hs2, hne2⟩ := hcontent
      constructor
      · exact joinTexts_ne_empty hjt
          (List.mem_filter.mpr ⟨hn1, by simp [htag1]⟩) hs1 hne1
      · exact joinTexts_ne_empty hjc
          (List.mem_filter.mpr ⟨hn2, by simp [htag2]⟩) hs2 hne2

/-- Witness for C1 at a concrete two-element template output. -/
theorem c1_render_nonempty_witness :
    Notification.render (some [⟨"title", some "T"⟩, ⟨"content", some "C"⟩]) =
      some ("T", "C") ∧ (("T" : String) ≠ "" ∧ ("C" : String) ≠ "") :=
  ⟨by decide,
   c1_render_nonempty [⟨"title", some "T"⟩, ⟨"content", some "C"⟩]
     (by decide) (by decide) "T" "C" (by decide)⟩

/-- Claim C2 counterexample: with credentials configured and login
raising an authentication error, MailNotification.send never calls
quit, so the SMTP session is not closed on that exit path (the login
happens before the try/finally block). -/
theorem c2_counterexample :
    MailEvent.quit ∉ (mailSendTrace (some ("t", "c")) ⟨true, true, false⟩).1 ∧
    (mailSendTrace (some ("t", "c")) ⟨true, true, false⟩).2 = SendResult.raised := by
  decide

/-- Claim C2 (amended): on every execution of MailNotification.send
that opens an SMTP session, quit is called on success and on a delivery
error raised by send_message (the try/finally covers both); only an
authentication error raised by login, which happens before the
try/finally, skips the teardown. -/
theorem c2_quit_on_non_login_paths (rendered : Option (String × String)) (o : SmtpOracle)
    (hconn : MailEvent.connect ∈ (mailSendTrace rendered o).1)
    (h : o.credentials = false ∨ o.loginFails = false) :
    MailEvent.quit ∈ (mailSendTrace rendered o).1 := by
  obtain ⟨c, l, s⟩ := o
  match rendered with
  | none => simp [mailSendTrace] at hconn
  | some r =>
    cases c <;> cases l <;> cases s <;> simp_all [mailSendTrace]

/-- Witness for C2 at a concrete delivery-error execution. -/
theorem c2_quit_on_non_login_paths_witness :
    MailEvent.quit ∈ (mailSendTrace (some ("t", "c")) ⟨false, false, true⟩).1 :=
  c2_quit_on_non_login_paths (some ("t", "c")) ⟨false, false, true⟩ (by decide)
    (Or.inl rfl)

/-- Claim C3 counterexample: a connection failure of the Chat-Card or
Event-Webhook post raises out of send (requests.post is not wrapped in
any handler), so an exception does propagate and the reporting sink is
not invoked. -/
theorem c3_counterexample :
    larkSend true HttpOutcome.connError = ⟨SendResult.raised, 1, 0⟩ ∧
    eventSend true (some exMsg) HttpOutcome.connError = ⟨SendResult.raised, 1, 0⟩ := by
  decide

/-- Claim C3 (amended): for the Chat-Card and Event-Webhook channels
with a configured URL, a received response that is a delivery failure
at the protocol level, meaning HTTP status other than 200 or a JSON
StatusCode other than zero, is non-fatal: send returns normally and the
reporting sink is invoked exactly once. A connection failure, or a 200
response whose body is unparsable or lacks StatusCode, instead raises. -/
theorem c3_report_once_nonfatal (s : Nat) (b : JsonBody) (m : NotifyMessage)
    (h : s ≠ 200 ∨ ∃ n : Int, n ≠ 0 ∧ b = .statusCode n) :
    larkSend true (.response s b) = ⟨.ok, 1, 1⟩ ∧
    eventSend true (some m) (.response s b) = ⟨.ok, 1, 1⟩ := by
  rcases h with h | ⟨n, hn, rfl⟩
  · simp [larkSend, eventSend, h]
  · by_cases hs : s = 200
    · subst hs
      simp [larkSend, eventSend, hn]
    · simp [larkSend, eventSend, hs]

/-- Witness for C3 at a concrete 500 response. -/
theorem c3_report_once_nonfatal_witness :
    larkSend true (.response 500 .invalid) = ⟨.ok, 1, 1⟩ ∧
    eventSend true (some exMsg) (.response 500 .invalid) = ⟨.ok, 1, 1⟩ :=
  c3_report_once_nonfatal 500 .invalid exMsg (Or.inl (by decide))

/-- Claim C4: when the destination URL of a webhook channel (generic
Webhook, Chat-Card, Event-Webhook) is unconfigured, that channel's send
returns success immediately as a no-op: no rendering error is possible
(even a failing render input is ignored), no network call is performed,
and no exception is raised. -/
theorem c4_unconfigured_noop (phase : TicketPhase) (t : Ticket)
    (rendered : Option (String × String)) (msg : Option NotifyMessage)
    (o1 o2 o3 : HttpOutcome) :
    webhookSend false phase t rendered o1 = ⟨.ok, []⟩ ∧
    larkSend false o2 = ⟨.ok, 0, 0⟩ ∧
    eventSend false msg o3 = ⟨.ok, 0, 0⟩ := by
  refine ⟨?_, ?_, ?_⟩ <;> simp [webhookSend, larkSend, eventSend]

/-- Claim C5: when the annotation node sequence decomposes around the
unique node whose name equals current_node, the Event-Webhook render
sets next_node to the name of the node immediately following it, or to
the empty string when that node is last, and sets notify_type to that
node's node_type. -/
theorem c5_next_node (phase : TicketPhase) (t : Ticket) (current : String)
    (pre post : List Node) (node : Node)
    (hn : t.ann_nodes = some (pre ++ node :: post))
    (hc : t.ann_current_node = some current)
    (hname : node.name = some current)
    (hpre : ∀ n ∈ pre, n.name ≠ some current)
    (hpost : ∀ n ∈ post, n.name ≠ some current) :
    ∃ m, eventRender phase t = some m ∧
      m.next_node = followingNodeName post ∧
      m.notify_type = node.node_type := by
  unfold eventRender
  rw [hn, hc]
  refine ⟨_, rfl, ?_, ?_⟩
  · show (renderNextNode (some current) (pre ++ node :: post)).1 = _
    rw [renderNextNode_spec current pre post node hname hpre hpost]
  · show (renderNextNode (some current) (pre ++ node :: post)).2 = _
    rw [renderNextNode_spec current pre post node hname hpre hpost]

/-- Witness for C5 at the spec's example sequence A, B, C with
current_node B: next_node is C and notify_type is the type of B. -/
theorem c5_next_node_witness :
    ∃ m, eventRender .approval exTicketNodes = some m ∧
      m.next_node = some "C" ∧ m.notify_type = some "typeB" := by
  have h := c5_next_node .approval exTicketNodes "B" [nodeA] [nodeC] nodeB
    rfl rfl rfl (by decide) (by decide)
  exact h

/-- Claim C6: for a ticket in the REQUEST phase, the Chat-Card payload
contains exactly the two action buttons Approve and Reject with urls
web_url/approve and web_url/reject when is_auto_approved is false, and
zero action buttons with an auto-approved line in the rendered content
when is_auto_approved is true. -/
theorem c6_request_buttons (t : Ticket) :
    (t.is_auto_approved = false →
      cardButtons (larkCardMsg .request t) =
        [⟨"Approve", "primary", t.web_url ++ "/approve"⟩,
         ⟨"Reject", "danger", t.web_url ++ "/reject"⟩]) ∧
    (t.is_auto_approved = true →
      cardButtons (larkCardMsg .request t) = [] ∧
      ∃ s, (larkRender .request t).2 = s ++ "auto approved\n") := by
  constructor
  · intro h
    simp [larkCardMsg, cardButtons, h]
  · intro h
    constructor
    · simp [larkCardMsg, cardButtons, h]
    · refine ⟨larkCommonHeader t ++ "Reason: " ++ pyStrOpt t.reason ++ "\n", ?_⟩
      simp [larkRender, h]

/-- Witness for C6: the two buttons at a concrete non-auto-approved
request ticket. -/
theorem c6_request_buttons_witness :
    cardButtons (larkCardMsg .request exTicket) =
      [⟨"Approve", "primary", exTicket.web_url ++ "/approve"⟩,
       ⟨"Reject", "danger", exTicket.web_url ++ "/reject"⟩] :=
  (c6_request_buttons exTicket).1 rfl

/-- Claim C7: for a rejected ticket in the APPROVAL phase, the
Chat-Card content carries the reject-reason line exactly when
ticket.reason differs from the annotation reason; when they are equal
the content is just the common header. -/
theorem c7_reject_reason (t : Ticket) (h : pyTruthy t.is_approved = false) :
    (t.reason ≠ t.ann_reason ∧
      (larkRender .approval t).2 =
        larkCommonHeader t ++ "Reject reason: " ++ pyStrOpt t.reason) ∨
    (t.reason = t.ann_reason ∧ (larkRender .approval t).2 = larkCommonHeader t) := by
  by_cases hr : t.reason = t.ann_reason
  · right
    exact ⟨hr, by simp [larkRender, h, hr]⟩
  · left
    exact ⟨hr, by simp [larkRender, h, hr]⟩

/-- Witness for C7 at a concrete rejected ticket whose reason differs
from the annotation reason. -/
theorem c7_reject_reason_witness :
    (exTicket.reason ≠ exTicket.ann_reason ∧
      (larkRender .approval exTicket).2 =
        larkCommonHeader exTicket ++ "Reject reason: " ++ pyStrOpt exTicket.reason) ∨
    (exTicket.reason = exTicket.ann_reason ∧
      (larkRender .approval exTicket).2 = larkCommonHeader exTicket) :=
  c7_reject_reason exTicket rfl

/-- Claim C8: get_mail_addrs is the comma join of its segment list; no
segment is empty (unresolvable identifiers are dropped, never
aborting); and the segments are exactly the non-empty entries among the
admin address, the mapped ccs, the split policy approvers, the mapped
approver rule-actions, and the mapped submitter exactly when the phase
is approval or mark. -/
theorem c8_mail_addrs (phase : TicketPhase) (t : Ticket) (f : String → String)
    (approvers : String) (ruleApprovers : List String) (adminAddrs : String) :
    get_mail_addrs phase t f approvers ruleApprovers adminAddrs =
      String.intercalate "," (mailAddrSegments phase t f approvers ruleApprovers adminAddrs) ∧
    (∀ s ∈ mailAddrSegments phase t f approvers ruleApprovers adminAddrs, s ≠ "") ∧
    mailAddrSegments phase t f approvers ruleApprovers adminAddrs =
      ([adminAddrs] ++ t.ccs.map f ++ approvers.splitOn "," ++ ruleApprovers.map f
        ++ (if phase = .approval ∨ phase = .mark then [f t.submitter] else [])).filter
        (fun a => a != "") := by
  refine ⟨rfl, ?_, ?_⟩
  · intro s hs
    have hmem := (List.mem_filter.mp hs).2
    simpa using hmem
  · unfold mailAddrSegments mailAddrList
    cases phase <;> simp [TicketPhase.value]

/-- Witness for C8: the empty string is never a segment, at concrete
inputs containing unmapped identifiers. -/
theorem c8_mail_addrs_witness :
    "" ∉ mailAddrSegments .approval exTicket (fun _ => "") "p@x,,q@x" ["r"] "a@x" :=
  fun hmem =>
    (c8_mail_addrs .approval exTicket (fun _ => "") "p@x,,q@x" ["r"] "a@x").2.1 "" hmem rfl

/-- Claim C9 counterexample: a 304 response is not 2xx, yet
raise_for_status raises only on 4xx and 5xx, so the generic webhook
send returns normally instead of failing. -/
theorem c9_counterexample :
    (webhookSend true .request exTicket (some ("t", "c"))
      (.response 304 .invalid)).result = SendResult.ok := by
  decide

/-- Claim C9 (amended): with a configured URL, the generic webhook send
posts exactly one JSON body with the fields from helpdesk, title, link,
color, text and markdown under a 3-second timeout; the color is 17a2b8
in the REQUEST phase when the ticket is approved-so-far, ffc107 in the
REQUEST phase otherwise, and the ticket's own color in other phases;
the response check raises exactly for statuses 400 to 599 (so non-2xx
statuses outside that range, such as 304, return normally). -/
theorem c9_webhook_post (phase : TicketPhase) (t : Ticket) (ti co : String)
    (s : Nat) (b : JsonBody) :
    (webhookSend true phase t (some (ti, co)) (.response s b)).posts =
      [({ msg_from := "helpdesk"
          title := ti
          link := t.web_url
          color := get_color phase t
          text := ti ++ "\n" ++ t.web_url ++ "\n" ++ co
          markdown := co }, 3)] ∧
    (webhookSend true phase t (some (ti, co)) (.response s b)).result =
      (if 400 ≤ s ∧ s < 600 then SendResult.raised else SendResult.ok) ∧
    get_color .request t = (if pyTruthy t.is_approved then "#17a2b8" else "#ffc107") ∧
    (phase ≠ .request → get_color phase t = t.color) := by
  refine ⟨?_, ?_, ?_, ?_⟩
  · by_cases hc : 400 ≤ s ∧ s < 600 <;> simp [webhookSend, hc]
  · by_cases hc : 400 ≤ s ∧ s < 600 <;> simp [webhookSend, hc]
  · simp [get_color, TicketPhase.value]
  · intro hp
    cases phase with
    | request => exact absurd rfl hp
    | approval => simp [get_color, TicketPhase.value]
    | mark => simp [get_color, TicketPhase.value]

/-- Witness for C9: the non-request color rule at a concrete
approval-phase call. -/
theorem c9_webhook_post_witness :
    get_color .approval exTicket = exTicket.color :=
  (c9_webhook_post .approval exTicket "t" "c" 500 .invalid).2.2.2 (by decide)

/-- Claim C10: the is_approved field of the NotifyMessage built by the
Event-Webhook render is always a boolean, computed as the Python
or-False coercion of the tri-state value; in particular an unset (None)
tri-state is coerced to false. -/
theorem c10_is_approved_bool (phase : TicketPhase) (t : Ticket) (nodes : List Node)
    (h : t.ann_nodes = some nodes) :
    ∃ m, eventRender phase t = some m ∧
      m.is_approved = pyOrFalse t.is_approved ∧
      (t.is_approved = none → m.is_approved = false) := by
  unfold eventRender
  rw [h]
  exact ⟨_, rfl, rfl, fun hn => by simp [pyOrFalse, hn]⟩

/-- Witness for C10 at a concrete ticket whose tri-state is unset. -/
theorem c10_is_approved_bool_witness :
    ∃ m, eventRender TicketPhase.request exTicket = some m ∧
      m.is_approved = pyOrFalse exTicket.is_approved ∧
      (exTicket.is_approved = none → m.is_approved = false) :=
  c10_is_approved_bool TicketPhase.request exTicket [] rfl

end Helpdesk

